import Mathlib

/-!
Shallow embedding of the HR case-management backend
(`MemStorage` in the storage module and the Express handlers in `routes.ts`).

Modelling conventions:
* JavaScript `Map<string, T>` becomes an association list `List (Nat × T)`
  kept in insertion order; `Map.set` replaces in place (as JS does) or
  appends a fresh key at the end.
* `randomUUID()` becomes a fresh-id counter `nextId` held by the store:
  each creation hands out `nextId` and increments it.
* `new Date()` becomes a logical clock `now : Nat` held by the store; every
  timestamp taken during one operation reads the current `now`, and each
  mutating operation advances the clock by one afterwards.
* `Partial<T>` update payloads become structures of `Option` fields with
  default `none`; the spread `{...entity, ...updates}` is a field-wise
  `Option.getD`.
* `Promise`/`async` is erased (the handlers await every store call); a
  fallible external call is an explicit `Except` argument to the handler.
-/

namespace HrBrain

/-- JS `x || d` on an optional string: `undefined`/`null` and `""` are falsy. -/
def jsOrStr : Option String → String → String
  | none, d => d
  | some s, d => if s = "" then d else s

/-- JS `x || null` on an optional string: `""` collapses to `null`. -/
def jsOrNullStr : Option String → Option String
  | none => none
  | some s => if s = "" then none else some s

/-- JS `x || d` on an optional number: `undefined`/`null` and `0` are falsy. -/
def jsOrNat : Option Nat → Nat → Nat
  | none, d => d
  | some n, d => if n = 0 then d else n

/-- A `User` row as built by `MemStorage.createUser`. -/
structure User where
  id : Nat
  username : String
  password : String
  email : String
  phone : String
  name : String
  role : String
  department : Option String
  isActive : Bool
  lastLogin : Option Nat
  createdAt : Nat
deriving Repr, DecidableEq

/-- The `InsertUser` payload accepted by `createUser`. -/
structure InsertUser where
  username : String
  password : String
  email : String
  phone : String
  name : String
  role : Option String := none
  department : Option String := none
  isActive : Option Bool := none
deriving Repr, DecidableEq

/-- A `Partial<User>` update payload for `updateUser`. -/
structure UserUpdate where
  id : Option Nat := none
  username : Option String := none
  password : Option String := none
  email : Option String := none
  phone : Option String := none
  name : Option String := none
  role : Option String := none
  department : Option (Option String) := none
  isActive : Option Bool := none
  lastLogin : Option (Option Nat) := none
  createdAt : Option Nat := none
deriving Repr, DecidableEq

/-- A `Complaint` row as built by `MemStorage.createComplaint`. -/
structure Complaint where
  id : Nat
  title : String
  description : String
  submitterId : Nat
  category : Option String
  status : String
  priority : String
  assignedTo : Option Nat
  aiAnalysis : Option String
  aiRecommendations : Option String
  sentimentScore : Option Int
  confidenceScore : Option Int
  isAnonymous : Bool
  createdAt : Nat
  updatedAt : Nat
deriving Repr, DecidableEq

/-- The `InsertComplaint` payload accepted by `createComplaint`. -/
structure InsertComplaint where
  title : String
  description : String
  submitterId : Nat
  category : Option String := none
  status : Option String := none
  priority : Option String := none
  assignedTo : Option Nat := none
  isAnonymous : Option Bool := none
deriving Repr, DecidableEq

/-- A `Partial<Complaint>` update payload for `updateComplaint`. -/
structure ComplaintUpdate where
  id : Option Nat := none
  title : Option String := none
  description : Option String := none
  submitterId : Option Nat := none
  category : Option (Option String) := none
  status : Option String := none
  priority : Option String := none
  assignedTo : Option (Option Nat) := none
  aiAnalysis : Option (Option String) := none
  aiRecommendations : Option (Option String) := none
  sentimentScore : Option (Option Int) := none
  confidenceScore : Option (Option Int) := none
  isAnonymous : Option Bool := none
  createdAt : Option Nat := none
  updatedAt : Option Nat := none
deriving Repr, DecidableEq

/-- A `Meeting` row as built by `MemStorage.createMeeting`. -/
structure Meeting where
  id : Nat
  title : String
  description : Option String
  organizerId : Nat
  attendeeIds : Option (List Nat)
  scheduledDate : Nat
  duration : Nat
  status : String
  meetingLink : Option String
  relatedComplaintId : Option Nat
  createdAt : Nat
deriving Repr, DecidableEq

/-- The `InsertMeeting` payload accepted by `createMeeting`. -/
structure InsertMeeting where
  title : String
  organizerId : Nat
  scheduledDate : Nat
  description : Option String := none
  attendeeIds : Option (List Nat) := none
  duration : Option Nat := none
  status : Option String := none
  meetingLink : Option String := none
  relatedComplaintId : Option Nat := none
deriving Repr, DecidableEq

/-- `Map.get` on an insertion-ordered association list. -/
def mapGet (k : Nat) : List (Nat × α) → Option α
  | [] => none
  | (k', v') :: rest => if k' = k then some v' else mapGet k rest

/-- `Map.set` on an insertion-ordered association list: replace in place
if the key is present (JS `Map.set` keeps the original position), append
otherwise. -/
def mapSet (k : Nat) (v : α) : List (Nat × α) → List (Nat × α)
  | [] => [(k, v)]
  | (k', v') :: rest => if k' = k then (k, v) :: rest else (k', v') :: mapSet k v rest

/-- The in-memory store: the three collections the verified claims touch,
the fresh-id counter standing for `randomUUID`, and the logical clock
standing for `new Date()`. -/
structure MemStorage where
  users : List (Nat × User)
  complaints : List (Nat × Complaint)
  meetings : List (Nat × Meeting)
  nextId : Nat
  now : Nat
deriving Repr, DecidableEq

/-- `MemStorage.getUser`. -/
def getUser (st : MemStorage) (id : Nat) : Option User :=
  mapGet id st.users

/-- `MemStorage.getUsers` (`Array.from(this.users.values())`, insertion order). -/
def getUsers (st : MemStorage) : List User :=
  st.users.map Prod.snd

/-- `MemStorage.createUser`: fill defaults, stamp `createdAt`, insert under a
fresh id. -/
def createUser (st : MemStorage) (iu : InsertUser) : User × MemStorage :=
  let id := st.nextId
  let user : User :=
    { id := id
      username := iu.username
      password := iu.password
      email := iu.email
      phone := iu.phone
      name := iu.name
      role := jsOrStr iu.role "employee"
      department := jsOrNullStr iu.department
      isActive := iu.isActive.getD true
      lastLogin := none
      createdAt := st.now }
  (user, { st with users := mapSet id user st.users, nextId := id + 1, now := st.now + 1 })

/-- The spread `{ ...user, ...updates }`. -/
def applyUserUpdate (u : User) (p : UserUpdate) : User :=
  { id := p.id.getD u.id
    username := p.username.getD u.username
    password := p.password.getD u.password
    email := p.email.getD u.email
    phone := p.phone.getD u.phone
    name := p.name.getD u.name
    role := p.role.getD u.role
    department := p.department.getD u.department
    isActive := p.isActive.getD u.isActive
    lastLogin := p.lastLogin.getD u.lastLogin
    createdAt := p.createdAt.getD u.createdAt }

/-- `MemStorage.updateUser`: absent id leaves the store untouched and yields
`undefined`; otherwise shallow-merge and write back. -/
def updateUser (st : MemStorage) (id : Nat) (p : UserUpdate) :
    Option User × MemStorage :=
  match mapGet id st.users with
  | none => (none, st)
  | some u =>
    let updated := applyUserUpdate u p
    (some updated, { st with users := mapSet id updated st.users, now := st.now + 1 })

/-- `MemStorage.getComplaint`. -/
def getComplaint (st : MemStorage) (id : Nat) : Option Complaint :=
  mapGet id st.complaints

/-- `MemStorage.getComplaints`: all values sorted by the comparator
`(a, b) => b.createdAt - a.createdAt`, i.e. newest created first. -/
def getComplaints (st : MemStorage) : List Complaint :=
  (st.complaints.map Prod.snd).mergeSort (fun a b => decide (b.createdAt ≤ a.createdAt))

/-- `MemStorage.createComplaint`: fill defaults, null out the AI fields,
stamp both timestamps, insert under a fresh id. -/
def createComplaint (st : MemStorage) (ic : InsertComplaint) : Complaint × MemStorage :=
  let id := st.nextId
  let complaint : Complaint :=
    { id := id
      title := ic.title
      description := ic.description
      submitterId := ic.submitterId
      category := ic.category
      status := jsOrStr ic.status "open"
      priority := jsOrStr ic.priority "medium"
      assignedTo := ic.assignedTo
      aiAnalysis := none
      aiRecommendations := none
      sentimentScore := none
      confidenceScore := none
      isAnonymous := ic.isAnonymous.getD false
      createdAt := st.now
      updatedAt := st.now }
  (complaint,
    { st with complaints := mapSet id complaint st.complaints, nextId := id + 1, now := st.now + 1 })

/-- The spread `{ ...complaint, ...updates }` (without the `updatedAt` stamp). -/
def applyComplaintUpdate (c : Complaint) (p : ComplaintUpdate) : Complaint :=
  { id := p.id.getD c.id
    title := p.title.getD c.title
    description := p.description.getD c.description
    submitterId := p.submitterId.getD c.submitterId
    category := p.category.getD c.category
    status := p.status.getD c.status
    priority := p.priority.getD c.priority
    assignedTo := p.assignedTo.getD c.assignedTo
    aiAnalysis := p.aiAnalysis.getD c.aiAnalysis
    aiRecommendations := p.aiRecommendations.getD c.aiRecommendations
    sentimentScore := p.sentimentScore.getD c.sentimentScore
    confidenceScore := p.confidenceScore.getD c.confidenceScore
    isAnonymous := p.isAnonymous.getD c.isAnonymous
    createdAt := p.createdAt.getD c.createdAt
    updatedAt := p.updatedAt.getD c.updatedAt }

/-- `MemStorage.updateComplaint`: absent id leaves the store untouched and
yields `undefined`; otherwise `{ ...complaint, ...updates, updatedAt: new Date() }`. -/
def updateComplaint (st : MemStorage) (id : Nat) (p : ComplaintUpdate) :
    Option Complaint × MemStorage :=
  match mapGet id st.complaints with
  | none => (none, st)
  | some c =>
    let updated := { applyComplaintUpdate c p with updatedAt := st.now }
    (some updated,
      { st with complaints := mapSet id updated st.complaints, now := st.now + 1 })

/-- `MemStorage.getMeetings`: all values sorted by the comparator
`(a, b) => a.scheduledDate - b.scheduledDate`, i.e. soonest scheduled first. -/
def getMeetings (st : MemStorage) : List Meeting :=
  (st.meetings.map Prod.snd).mergeSort (fun a b => decide (a.scheduledDate ≤ b.scheduledDate))

/-- `MemStorage.createMeeting`. -/
def createMeeting (st : MemStorage) (im : InsertMeeting) : Meeting × MemStorage :=
  let id := st.nextId
  let meeting : Meeting :=
    { id := id
      title := im.title
      description := jsOrNullStr im.description
      organizerId := im.organizerId
      attendeeIds := im.attendeeIds
      scheduledDate := im.scheduledDate
      duration := jsOrNat im.duration 30
      status := jsOrStr im.status "scheduled"
      meetingLink := jsOrNullStr im.meetingLink
      relatedComplaintId := im.relatedComplaintId
      createdAt := st.now }
  (meeting,
    { st with meetings := mapSet id meeting st.meetings, nextId := id + 1, now := st.now + 1 })

/-- The default HR manager seeded by the `MemStorage` constructor
(`initializeDefaults`). -/
def defaultHrManager : InsertUser :=
  { username := "sarah.johnson"
    password := "password123"
    email := "sarah.johnson@company.com"
    phone := "+1234567890"
    name := "Sarah Johnson"
    role := some "hr_manager"
    department := some "Human Resources" }

/-- A store with no entities, before the constructor body runs. -/
def emptyStorage : MemStorage :=
  { users := [], complaints := [], meetings := [], nextId := 0, now := 0 }

/-- `new MemStorage()`: empty maps, then `initializeDefaults` creates the
default HR manager. -/
def MemStorage.init : MemStorage :=
  (createUser emptyStorage defaultHrManager).2

/-! ### The AI annotation adapter and the Express handlers -/

/-- The structured result of `analyzeComplaint` in the OpenAI adapter.
Modelled from the spec: the adapter source is not in the repository slice;
the spec gives `analyzeComplaint(title, description) -> {category, priority,
summary, recommendations[], sentiment: number, confidence: number}`. -/
structure ComplaintAnalysis where
  category : String
  priority : String
  summary : String
  recommendations : List String
  sentiment : Int
  confidence : Int
deriving Repr, DecidableEq

/-- Abstract executable model of `JSON.stringify` on an array of strings;
the handlers only ever store the result opaquely. -/
def jsonStringify (l : List String) : String :=
  "[" ++ String.intercalate "," (l.map (fun s => "\x22" ++ s ++ "\x22")) ++ "]"

/-- An HTTP response: status code plus optional JSON body of type `β`. -/
structure HttpResult (β : Type) where
  status : Nat
  body : Option β
deriving Repr, DecidableEq

/-- `PATCH /api/complaints/:id`: update through the store; absent id is 404,
success is 200 with the merged entity. -/
def patchComplaintHandler (st : MemStorage) (id : Nat) (updates : ComplaintUpdate) :
    HttpResult Complaint × MemStorage :=
  let r := updateComplaint st id updates
  match r.1 with
  | none => ({ status := 404, body := none }, st)
  | some c => ({ status := 200, body := some c }, r.2)

/-- `POST /api/complaints` on an already schema-valid body: create, then
best-effort AI annotation. The outcome of the external `analyzeComplaint`
call is passed in as an `Except`; the `catch` branch skips the annotation
update. In both cases the handler responds 201 with the pre-annotation
`complaint` object. -/
def postComplaintHandler (st : MemStorage) (body : InsertComplaint)
    (ai : Except String ComplaintAnalysis) : HttpResult Complaint × MemStorage :=
  let created := createComplaint st body
  let complaint := created.1
  let st1 := created.2
  match ai with
  | Except.ok analysis =>
    let upd : ComplaintUpdate :=
      { category := some (some analysis.category)
        priority := some analysis.priority
        aiAnalysis := some (some analysis.summary)
        aiRecommendations := some (some (jsonStringify analysis.recommendations))
        sentimentScore := some (some analysis.sentiment)
        confidenceScore := some (some analysis.confidence) }
    let st2 := (updateComplaint st1 complaint.id upd).2
    ({ status := 201, body := some complaint }, st2)
  | Except.error _ => ({ status := 201, body := some complaint }, st1)

/-- A user as serialized by the auth handlers:
`const { password: _, ...userWithoutPassword } = user`. -/
structure PublicUser where
  id : Nat
  username : String
  email : String
  phone : String
  name : String
  role : String
  department : Option String
  isActive : Bool
  lastLogin : Option Nat
  createdAt : Nat
deriving Repr, DecidableEq

/-- Strip the password field from a user for the response body. -/
def User.stripPassword (u : User) : PublicUser :=
  { id := u.id
    username := u.username
    email := u.email
    phone := u.phone
    name := u.name
    role := u.role
    department := u.department
    isActive := u.isActive
    lastLogin := u.lastLogin
    createdAt := u.createdAt }

/-- `POST /api/auth/login`: empty phone or password is 400; then
`users.find(u => u.phone === phone && u.password === password)`; no match or
inactive user is 401; otherwise stamp `lastLogin` through `updateUser` and
respond 200 with the password stripped from the (pre-update) user object. -/
def loginHandler (st : MemStorage) (phone password : String) :
    HttpResult PublicUser × MemStorage :=
  if phone = "" || password = "" then ({ status := 400, body := none }, st)
  else
    match (getUsers st).find? (fun u => u.phone == phone && u.password == password) with
    | none => ({ status := 401, body := none }, st)
    | some user =>
      if !user.isActive then ({ status := 401, body := none }, st)
      else
        let st' := (updateUser st user.id { lastLogin := some (some st.now) }).2
        ({ status := 200, body := some user.stripPassword }, st')

/-- `POST /api/auth/register` on an already schema-valid body:
`users.find(u => u.phone === userData.phone || u.email === userData.email)`
yields 400 without touching the store; otherwise create the user and respond
201 with the password stripped. -/
def registerHandler (st : MemStorage) (body : InsertUser) :
    HttpResult PublicUser × MemStorage :=
  match (getUsers st).find? (fun u => u.phone == body.phone || u.email == body.email) with
  | some _ => ({ status := 400, body := none }, st)
  | none =>
    let created := createUser st body
    ({ status := 201, body := some created.1.stripPassword }, created.2)

/-! ### Concrete inputs used by witnesses and counterexamples -/

/-- The user row the constructor seeds: `createUser` applied to
`defaultHrManager` on the empty store. -/
def sarahUser : User :=
  { id := 0, username := "sarah.johnson", password := "password123",
    email := "sarah.johnson@company.com", phone := "+1234567890",
    name := "Sarah Johnson", role := "hr_manager",
    department := some "Human Resources", isActive := true,
    lastLogin := none, createdAt := 0 }

/-- A minimal valid complaint-creation payload. -/
def ic0 : InsertComplaint := { title := "t", description := "d", submitterId := 0 }

/-- A fresh store holding the seeded HR manager and one complaint (key 1). -/
def st0 : MemStorage := (createComplaint MemStorage.init ic0).2

/-- The complaint stored in `st0` under key 1, as returned at creation. -/
def complaint0 : Complaint := (createComplaint MemStorage.init ic0).1

/-- A registration payload whose phone and email are not in the fresh store. -/
def iu1 : InsertUser :=
  { username := "john", password := "pw", email := "new@company.com",
    phone := "+15550000000", name := "John Doe" }

/-- A registration payload reusing the seeded phone number. -/
def iu2 : InsertUser :=
  { username := "x", password := "y", email := "z@z",
    phone := "+1234567890", name := "X" }

/-! ### Store invariants -/

/-- Every key ever handed out is below the fresh-id counter; holds for every
store reachable from `MemStorage.init` and makes each freshly generated id
distinct from every id in the store. -/
def KeysBelow (st : MemStorage) : Prop :=
  (∀ p ∈ st.users, p.1 < st.nextId) ∧
  (∀ p ∈ st.complaints, p.1 < st.nextId) ∧
  (∀ p ∈ st.meetings, p.1 < st.nextId)

instance (st : MemStorage) : Decidable (KeysBelow st) := by
  unfold KeysBelow; infer_instance

/-- Every stored complaint's `updatedAt` was stamped at a strictly earlier
clock reading than the store's current clock; holds for every store
reachable from `MemStorage.init`. -/
def UpdatedBelow (st : MemStorage) : Prop :=
  ∀ p ∈ st.complaints, (p.2 : Complaint).updatedAt < st.now

instance (st : MemStorage) : Decidable (UpdatedBelow st) := by
  unfold UpdatedBelow; infer_instance

/-! ### Association-list lemmas -/

theorem mapGet_mapSet_self (k : Nat) (v : α) (l : List (Nat × α)) :
    mapGet k (mapSet k v l) = some v := by
  induction l with
  | nil => simp [mapGet, mapSet]
  | cons p rest ih =>
    by_cases h : p.1 = k
    · simp [mapGet, mapSet, h]
    · simp [mapGet, mapSet, h, ih]

theorem mem_mapSet {k : Nat} {v : α} {l : List (Nat × α)} {p : Nat × α}
    (hp : p ∈ mapSet k v l) : p = (k, v) ∨ p ∈ l := by
  induction l with
  | nil => simpa [mapSet] using hp
  | cons q rest ih =>
    by_cases h : q.1 = k
    · rw [mapSet, if_pos h, List.mem_cons] at hp
      rcases hp with hp1 | hp1
      · exact Or.inl hp1
      · exact Or.inr (List.mem_cons_of_mem _ hp1)
    · rw [mapSet, if_neg h, List.mem_cons] at hp
      rcases hp with hp1 | hp1
      · exact Or.inr (hp1 ▸ List.mem_cons_self _ _)
      · rcases ih hp1 with hp2 | hp2
        · exact Or.inl hp2
        · exact Or.inr (List.mem_cons_of_mem _ hp2)

theorem mapGet_eq_none {l : List (Nat × α)} {n : Nat}
    (h : ∀ p ∈ l, p.1 < n) : mapGet n l = none := by
  induction l with
  | nil => rfl
  | cons p rest ih =>
    have hp := h p (List.mem_cons_self _ _)
    have hne : p.1 ≠ n := Nat.ne_of_lt hp
    simp only [mapGet, if_neg hne]
    exact ih (fun q hq => h q (List.mem_cons_of_mem _ hq))

/-! ### Unfolding lemmas for the store operations -/

theorem updateComplaint_of_get {st : MemStorage} {id : Nat} {c : Complaint}
    (hc : getComplaint st id = some c) (p : ComplaintUpdate) :
    updateComplaint st id p =
      (some { applyComplaintUpdate c p with updatedAt := st.now },
        { st with
            complaints :=
              mapSet id { applyComplaintUpdate c p with updatedAt := st.now } st.complaints
            now := st.now + 1 }) := by
  unfold updateComplaint
  rw [show mapGet id st.complaints = some c from hc]

theorem updateComplaint_of_none {st : MemStorage} {id : Nat}
    (hc : getComplaint st id = none) (p : ComplaintUpdate) :
    updateComplaint st id p = (none, st) := by
  unfold updateComplaint
  rw [show mapGet id st.complaints = none from hc]

theorem updateUser_of_get {st : MemStorage} {id : Nat} {u : User}
    (hu : getUser st id = some u) (p : UserUpdate) :
    updateUser st id p =
      (some (applyUserUpdate u p),
        { st with users := mapSet id (applyUserUpdate u p) st.users, now := st.now + 1 }) := by
  unfold updateUser
  rw [show mapGet id st.users = some u from hu]

theorem mem_of_mapGet {l : List (Nat × α)} {k : Nat} {v : α}
    (h : mapGet k l = some v) : (k, v) ∈ l := by
  induction l with
  | nil => simp [mapGet] at h
  | cons q rest ih =>
    by_cases hq : q.1 = k
    · rw [mapGet, if_pos hq] at h
      have hqv : q = (k, v) := by
        cases q
        simp only at hq
        cases h
        simp [hq]
      exact hqv ▸ List.mem_cons_self _ _
    · rw [mapGet, if_neg hq] at h
      exact List.mem_cons_of_mem _ (ih h)

/-! ### Claim C1: identifier uniqueness and immutability -/

/-- C1 counterexample: the claim that the entity returned by update always
keeps the id it was created with is false. On the store `st0`, whose only
complaint was created with id 1, `updateComplaint` with the payload
`{ id: 999 }` returns — and a later get of the same key 1 yields — an entity
whose id field is 999, because the spread `{ ...complaint, ...updates }`
lets the payload overwrite `id`. -/
theorem c1_id_overwritten_by_update_payload :
    (updateComplaint st0 1 { id := some 999 }).1.map Complaint.id = some 999 ∧
    (getComplaint (updateComplaint st0 1 { id := some 999 }).2 1).map Complaint.id = some 999 ∧
    (getComplaint st0 1).map Complaint.id = some 1 ∧ (999 : Nat) ≠ 1 := by
  refine ⟨by decide, by decide, by decide, by decide⟩

/-- C1 amended: creation assigns each entity a fresh id distinct from every
id in the store (given the reachable-store invariant `KeysBelow`), the
created entity is retrievable under that id, the invariant is preserved,
and update payloads that do not themselves contain an `id` field leave the
entity's id unchanged, both in the returned entity and on a later get. -/
theorem c1_id_unique_and_immutable (st : MemStorage) (hk : KeysBelow st)
    (ic : InsertComplaint) (iu : InsertUser) (id : Nat)
    (cu : ComplaintUpdate) (uu : UserUpdate)
    (hcu : cu.id = none) (huu : uu.id = none) :
    ((createComplaint st ic).1.id = st.nextId ∧
      mapGet st.nextId st.users = none ∧
      mapGet st.nextId st.complaints = none ∧
      mapGet st.nextId st.meetings = none ∧
      getComplaint (createComplaint st ic).2 (createComplaint st ic).1.id
        = some (createComplaint st ic).1 ∧
      KeysBelow (createComplaint st ic).2) ∧
    ((createUser st iu).1.id = st.nextId ∧
      getUser (createUser st iu).2 (createUser st iu).1.id = some (createUser st iu).1 ∧
      KeysBelow (createUser st iu).2) ∧
    (∀ c, getComplaint st id = some c →
      (updateComplaint st id cu).1.map Complaint.id = some c.id ∧
      (getComplaint (updateComplaint st id cu).2 id).map Complaint.id = some c.id) ∧
    (∀ u, getUser st id = some u →
      (updateUser st id uu).1.map User.id = some u.id ∧
      (getUser (updateUser st id uu).2 id).map User.id = some u.id) := by
  obtain ⟨hku, hkc, hkm⟩ := hk
  refine ⟨⟨rfl, mapGet_eq_none hku, mapGet_eq_none hkc, mapGet_eq_none hkm, ?_, ?_, ?_, ?_⟩,
    ⟨rfl, ?_, ?_, ?_, ?_⟩, ?_, ?_⟩
  · simp [getComplaint, createComplaint, mapGet_mapSet_self]
  · exact fun p hp => Nat.lt_succ_of_lt (hku p hp)
  · intro p hp
    rcases mem_mapSet hp with h | h
    · rw [h]; exact Nat.lt_succ_self _
    · exact Nat.lt_succ_of_lt (hkc p h)
  · exact fun p hp => Nat.lt_succ_of_lt (hkm p hp)
  · simp [getUser, createUser, mapGet_mapSet_self]
  · intro p hp
    rcases mem_mapSet hp with h | h
    · rw [h]; exact Nat.lt_succ_self _
    · exact Nat.lt_succ_of_lt (hku p h)
  · exact fun p hp => Nat.lt_succ_of_lt (hkc p hp)
  · exact fun p hp => Nat.lt_succ_of_lt (hkm p hp)
  · intro c hc
    have h2 := updateComplaint_of_get hc cu
    constructor
    · rw [h2]
      simp [applyComplaintUpdate, hcu]
    · rw [h2]
      simp [getComplaint, mapGet_mapSet_self, applyComplaintUpdate, hcu]
  · intro u hu
    have h2 := updateUser_of_get hu uu
    constructor
    · rw [h2]
      simp [applyUserUpdate, huu]
    · rw [h2]
      simp [getUser, mapGet_mapSet_self, applyUserUpdate, huu]

/-- C1 witness: the hypotheses of the amended theorem hold on the fresh
store, and instantiating it there shows a created complaint gets the fresh
id and an id-free user update preserves the seeded user's id 0. -/
theorem c1_id_unique_and_immutable_witness :
    KeysBelow MemStorage.init ∧
    (createComplaint MemStorage.init ic0).1.id = MemStorage.init.nextId ∧
    (updateUser MemStorage.init 0 {}).1.map User.id = some 0 := by
  refine ⟨by decide, ?_, ?_⟩
  · exact (c1_id_unique_and_immutable MemStorage.init (by decide) ic0 defaultHrManager 0
      {} {} rfl rfl).1.1
  · exact ((c1_id_unique_and_immutable MemStorage.init (by decide) ic0 defaultHrManager 0
      {} {} rfl rfl).2.2.2 sarahUser (by decide)).1

/-! ### Claim C2: timestamps set by the store -/

/-- C2 counterexample: the claim that a stored entity never carries a
caller-supplied `createdAt` after an update is false. On `st0`, whose only
complaint was created with `createdAt` 1, `updateComplaint` with the payload
`{ createdAt: 999 }` leaves the stored complaint carrying the caller's
999, because the spread `{ ...complaint, ...updates }` only re-stamps
`updatedAt`, not `createdAt`. -/
theorem c2_caller_createdAt_stored :
    (getComplaint (updateComplaint st0 1 { createdAt := some 999 }).2 1).map Complaint.createdAt
      = some 999 ∧
    (getComplaint st0 1).map Complaint.createdAt = some 1 := by
  exact ⟨by decide, by decide⟩

/-- C2 amended: at creation both timestamps are the store clock; on a
complaint update whose payload carries no `createdAt`, the stored
`createdAt` is unchanged and `updatedAt` is the store clock (a
caller-supplied `updatedAt` is never stored), strictly above the previous
`updatedAt`; the `UpdatedBelow` clock invariant is preserved, giving
monotone non-decreasing timestamps along such operations. -/
theorem c2_store_assigned_timestamps (st : MemStorage) (hu : UpdatedBelow st)
    (ic : InsertComplaint) (iu : InsertUser) (id : Nat) (c : Complaint)
    (hc : getComplaint st id = some c)
    (p : ComplaintUpdate) (hcr : p.createdAt = none) :
    (createComplaint st ic).1.createdAt = st.now ∧
    (createComplaint st ic).1.updatedAt = st.now ∧
    (createUser st iu).1.createdAt = st.now ∧
    (updateComplaint st id p).1.map Complaint.createdAt = some c.createdAt ∧
    (updateComplaint st id p).1.map Complaint.updatedAt = some st.now ∧
    c.updatedAt < st.now ∧
    (getComplaint (updateComplaint st id p).2 id).map Complaint.updatedAt = some st.now ∧
    UpdatedBelow (updateComplaint st id p).2 ∧
    UpdatedBelow (createComplaint st ic).2 := by
  have h2 := updateComplaint_of_get hc p
  have hmem : (id, c) ∈ st.complaints := mem_of_mapGet hc
  have hlt : c.updatedAt < st.now := hu _ hmem
  refine ⟨rfl, rfl, rfl, ?_, ?_, hlt, ?_, ?_, ?_⟩
  · rw [h2]
    simp [applyComplaintUpdate, hcr]
  · rw [h2]
    simp
  · rw [h2]
    simp [getComplaint, mapGet_mapSet_self]
  · rw [h2]
    intro q hq
    rcases mem_mapSet hq with h | h
    · rw [h]
      exact Nat.lt_succ_self _
    · exact Nat.lt_succ_of_lt (hu q h)
  · intro q hq
    rcases mem_mapSet hq with h | h
    · rw [h]
      exact Nat.lt_succ_self _
    · exact Nat.lt_succ_of_lt (hu q h)

/-- C2 witness: the hypotheses hold on `st0` with its stored complaint, and
instantiating the amended theorem there shows a `createdAt`-free update
(here a caller-supplied `updatedAt: 999`) keeps `createdAt` 1 and stamps
`updatedAt` with the store clock 2, ignoring the caller's 999. -/
theorem c2_store_assigned_timestamps_witness :
    UpdatedBelow st0 ∧ getComplaint st0 1 = some complaint0 ∧
    (updateComplaint st0 1 { updatedAt := some 999 }).1.map Complaint.createdAt
      = some complaint0.createdAt ∧
    (updateComplaint st0 1 { updatedAt := some 999 }).1.map Complaint.updatedAt
      = some st0.now := by
  refine ⟨by decide, by decide, ?_, ?_⟩
  · exact (c2_store_assigned_timestamps st0 (by decide) ic0 defaultHrManager 1 complaint0
      (by decide) { updatedAt := some 999 } rfl).2.2.2.1
  · exact (c2_store_assigned_timestamps st0 (by decide) ic0 defaultHrManager 1 complaint0
      (by decide) { updatedAt := some 999 } rfl).2.2.2.2.1

/-! ### Claim C3: update then get reflects the payload, frame condition -/

/-- C3 counterexample: the claim quantifies over every single-field payload;
for the field `updatedAt` it fails. On `st0`, whose clock reads 2, updating
its complaint with the payload `{ updatedAt: 999 }` yields an entity whose
`updatedAt` is the store clock 2, not the payload value 999, because
`updateComplaint` re-stamps `updatedAt` after the spread. -/
theorem c3_updatedAt_payload_not_reflected :
    (updateComplaint st0 1 { updatedAt := some 999 }).1.map Complaint.updatedAt = some 2 ∧
    (2 : Nat) ≠ 999 := by
  exact ⟨by decide, by decide⟩

/-- C3 amended: for every update payload not containing `updatedAt` (in
particular every single-field payload `{field: v}` with `field` other than
`updatedAt`), update followed by get yields an entity where each field
equals the payload value when present and is unchanged otherwise, except
`updatedAt`, which is set to the store clock and strictly increases. -/
theorem c3_update_frame (st : MemStorage) (hu : UpdatedBelow st) (id : Nat) (c : Complaint)
    (hc : getComplaint st id = some c) (p : ComplaintUpdate) (_hp : p.updatedAt = none) :
    ∃ c', (updateComplaint st id p).1 = some c' ∧
      getComplaint (updateComplaint st id p).2 id = some c' ∧
      c'.id = p.id.getD c.id ∧
      c'.title = p.title.getD c.title ∧
      c'.description = p.description.getD c.description ∧
      c'.submitterId = p.submitterId.getD c.submitterId ∧
      c'.category = p.category.getD c.category ∧
      c'.status = p.status.getD c.status ∧
      c'.priority = p.priority.getD c.priority ∧
      c'.assignedTo = p.assignedTo.getD c.assignedTo ∧
      c'.aiAnalysis = p.aiAnalysis.getD c.aiAnalysis ∧
      c'.aiRecommendations = p.aiRecommendations.getD c.aiRecommendations ∧
      c'.sentimentScore = p.sentimentScore.getD c.sentimentScore ∧
      c'.confidenceScore = p.confidenceScore.getD c.confidenceScore ∧
      c'.isAnonymous = p.isAnonymous.getD c.isAnonymous ∧
      c'.createdAt = p.createdAt.getD c.createdAt ∧
      c'.updatedAt = st.now ∧ c.updatedAt < c'.updatedAt := by
  have h2 := updateComplaint_of_get hc p
  have hlt : c.updatedAt < st.now := hu _ (mem_of_mapGet hc)
  refine ⟨{ applyComplaintUpdate c p with updatedAt := st.now }, ?_, ?_,
    rfl, rfl, rfl, rfl, rfl, rfl, rfl, rfl, rfl, rfl, rfl, rfl, rfl, rfl, rfl, hlt⟩
  · rw [h2]
  · rw [h2]
    simp [getComplaint, mapGet_mapSet_self]

/-- C3 witness: the hypotheses hold on `st0`, and instantiating the amended
theorem with the single-field payload `{ title: "new" }` shows the returned
entity's title is the payload value. -/
theorem c3_update_frame_witness :
    UpdatedBelow st0 ∧
    (updateComplaint st0 1 { title := some "new" }).1.map Complaint.title = some "new" := by
  refine ⟨by decide, ?_⟩
  obtain ⟨c', h1, h2, h3, h4, hrest⟩ := c3_update_frame st0 (by decide) 1 complaint0
    (by decide) { title := some "new" } rfl
  rw [h1]
  simp [h4]

/-! ### Claim C4: update on an absent id -/

/-- C4: updating a complaint id that is not in the store returns the
explicit absent signal with the store unchanged, and the PATCH handler
turns it into a 404 with the store unchanged. -/
theorem c4_update_absent_id (st : MemStorage) (id : Nat) (p : ComplaintUpdate)
    (h : getComplaint st id = none) :
    updateComplaint st id p = (none, st) ∧
    patchComplaintHandler st id p = ({ status := 404, body := none }, st) := by
  have h1 := updateComplaint_of_none h p
  refine ⟨h1, ?_⟩
  simp [patchComplaintHandler, h1]

/-- C4 witness: id 5 is absent from the fresh store, and updating it
returns the absent signal and a 404 with the store unchanged. -/
theorem c4_update_absent_id_witness :
    getComplaint MemStorage.init 5 = none ∧
    updateComplaint MemStorage.init 5 {} = (none, MemStorage.init) ∧
    patchComplaintHandler MemStorage.init 5 {}
      = ({ status := 404, body := none }, MemStorage.init) := by
  refine ⟨by decide, ?_, ?_⟩
  · exact (c4_update_absent_id MemStorage.init 5 {} (by decide)).1
  · exact (c4_update_absent_id MemStorage.init 5 {} (by decide)).2

/-! ### Claim C5: AI failure during complaint creation -/

/-- C5: when the AI annotation call fails, the POST /complaints handler
still responds 201 with the created complaint, whose AI fields are all
null, and the stored complaint (a later get of its id) equally carries null
AI fields; being a total function, the handler propagates no exception. -/
theorem c5_ai_failure_tolerated (st : MemStorage) (body : InsertComplaint) (e : String) :
    (postComplaintHandler st body (Except.error e)).1.status = 201 ∧
    (postComplaintHandler st body (Except.error e)).1.body = some (createComplaint st body).1 ∧
    (createComplaint st body).1.aiAnalysis = none ∧
    (createComplaint st body).1.aiRecommendations = none ∧
    (createComplaint st body).1.sentimentScore = none ∧
    (createComplaint st body).1.confidenceScore = none ∧
    getComplaint (postComplaintHandler st body (Except.error e)).2
      (createComplaint st body).1.id = some (createComplaint st body).1 := by
  refine ⟨rfl, rfl, rfl, rfl, rfl, rfl, ?_⟩
  simp [postComplaintHandler, getComplaint, createComplaint, mapGet_mapSet_self]

/-! ### Claim C6: registration duplicate check -/

/-- C6: registering with a phone or email already present in the store
yields 400 and leaves the store unchanged; otherwise the user is created
and returned with the password field stripped. -/
theorem c6_register_duplicate_check (st : MemStorage) (body : InsertUser) :
    ((∃ u ∈ getUsers st, u.phone = body.phone ∨ u.email = body.email) →
      registerHandler st body = ({ status := 400, body := none }, st)) ∧
    ((∀ u ∈ getUsers st, u.phone ≠ body.phone ∧ u.email ≠ body.email) →
      registerHandler st body =
        ({ status := 201, body := some (createUser st body).1.stripPassword },
          (createUser st body).2)) := by
  constructor
  · rintro ⟨u, hu, hor⟩
    have hsome : ((getUsers st).find?
        (fun v => v.phone == body.phone || v.email == body.email)).isSome = true := by
      apply List.find?_isSome.mpr
      refine ⟨u, hu, ?_⟩
      rcases hor with h | h <;> simp [h]
    obtain ⟨w, hw⟩ := Option.isSome_iff_exists.mp hsome
    unfold registerHandler
    rw [hw]
  · intro hall
    have hnone : (getUsers st).find?
        (fun v => v.phone == body.phone || v.email == body.email) = none := by
      apply List.find?_eq_none.mpr
      intro u hu
      have h := hall u hu
      intro hpred
      simp only [Bool.or_eq_true, beq_iff_eq] at hpred
      rcases hpred with h1 | h1
      · exact h.1 h1
      · exact h.2 h1
    unfold registerHandler
    rw [hnone]

/-- C6 witness: the payload `iu1` clashes with nobody in the fresh store,
so registration succeeds with 201 and a password-stripped body. -/
theorem c6_register_duplicate_check_witness :
    (∀ u ∈ getUsers MemStorage.init, u.phone ≠ iu1.phone ∧ u.email ≠ iu1.email) ∧
    registerHandler MemStorage.init iu1 =
      ({ status := 201, body := some (createUser MemStorage.init iu1).1.stripPassword },
        (createUser MemStorage.init iu1).2) := by
  refine ⟨by decide, ?_⟩
  exact (c6_register_duplicate_check MemStorage.init iu1).2 (by decide)

/-! ### Claim C7: login outcomes -/

/-- C7: with empty phone or password the login handler responds 400; with
both non-empty it responds 401 when no stored user matches phone and
password (covering unknown phone and wrong password) and when the matching
user is inactive; on an active match it responds 200 with the
password-stripped user and stamps the stored user's lastLogin with the
store clock. -/
theorem c7_login_outcomes (st : MemStorage) (phone password : String) :
    ((phone = "" ∨ password = "") →
      loginHandler st phone password = ({ status := 400, body := none }, st)) ∧
    (phone ≠ "" → password ≠ "" →
      (((∀ u ∈ getUsers st, ¬(u.phone = phone ∧ u.password = password)) →
          loginHandler st phone password = ({ status := 401, body := none }, st)) ∧
       (∀ u, (getUsers st).find? (fun v => v.phone == phone && v.password == password)
            = some u →
          (u.isActive = false →
            loginHandler st phone password = ({ status := 401, body := none }, st)) ∧
          (u.isActive = true →
            loginHandler st phone password =
              ({ status := 200, body := some u.stripPassword },
                (updateUser st u.id { lastLogin := some (some st.now) }).2) ∧
            (∀ w, getUser st u.id = some w →
              getUser (loginHandler st phone password).2 u.id =
                some { w with lastLogin := some st.now }))))) := by
  constructor
  · intro h
    rcases h with h | h <;> simp [loginHandler, h]
  · intro hph hpw
    constructor
    · intro hall
      have hnone : (getUsers st).find?
          (fun v => v.phone == phone && v.password == password) = none := by
        apply List.find?_eq_none.mpr
        intro u hu
        intro hpred
        simp only [Bool.and_eq_true, beq_iff_eq] at hpred
        exact hall u hu hpred
      unfold loginHandler
      rw [if_neg (by simp [hph, hpw]), hnone]
    · intro u hfind
      constructor
      · intro hact
        unfold loginHandler
        rw [if_neg (by simp [hph, hpw]), hfind]
        simp [hact]
      · intro hact
        have hL : loginHandler st phone password =
            ({ status := 200, body := some u.stripPassword },
              (updateUser st u.id { lastLogin := some (some st.now) }).2) := by
          unfold loginHandler
          rw [if_neg (by simp [hph, hpw]), hfind]
          simp [hact]
        refine ⟨hL, ?_⟩
        intro w hw
        rw [hL]
        show getUser (updateUser st u.id { lastLogin := some (some st.now) }).2 u.id = _
        rw [updateUser_of_get hw]
        simp [getUser, mapGet_mapSet_self]
        rfl

/-- C7 witness: the seeded HR manager's credentials log in successfully on
the fresh store: find matches her, she is active, and the handler responds
200 with her password-stripped record. -/
theorem c7_login_outcomes_witness :
    ("+1234567890" : String) ≠ "" ∧ ("password123" : String) ≠ "" ∧
    (getUsers MemStorage.init).find?
      (fun v => v.phone == "+1234567890" && v.password == "password123") = some sarahUser ∧
    sarahUser.isActive = true ∧
    loginHandler MemStorage.init "+1234567890" "password123" =
      ({ status := 200, body := some sarahUser.stripPassword },
        (updateUser MemStorage.init sarahUser.id
          { lastLogin := some (some MemStorage.init.now) }).2) := by
  refine ⟨by decide, by decide, by decide, rfl, ?_⟩
  exact ((((c7_login_outcomes MemStorage.init "+1234567890" "password123").2
    (by decide) (by decide)).2 sarahUser (by decide)).2 rfl).1

/-! ### Claim C8: list ordering -/

/-- C8: listing complaints returns exactly the stored complaints ordered by
descending createdAt (newest created first), and listing meetings returns
exactly the stored meetings ordered by ascending scheduledDate (soonest
scheduled first). -/
theorem c8_list_order (st : MemStorage) :
    (getComplaints st).Perm (st.complaints.map Prod.snd) ∧
    (getComplaints st).Pairwise (fun a b => b.createdAt ≤ a.createdAt) ∧
    (getMeetings st).Perm (st.meetings.map Prod.snd) ∧
    (getMeetings st).Pairwise (fun a b => a.scheduledDate ≤ b.scheduledDate) := by
  refine ⟨List.mergeSort_perm _ _, ?_, List.mergeSort_perm _ _, ?_⟩
  · have h := @List.sorted_mergeSort Complaint
      (fun a b => decide (b.createdAt ≤ a.createdAt))
      (fun a b c h1 h2 => by
        simp only [decide_eq_true_eq] at h1 h2 ⊢; omega)
      (fun a b => by
        simp only [Bool.or_eq_true, decide_eq_true_eq]; omega)
      (st.complaints.map Prod.snd)
    exact h.imp (fun hab => of_decide_eq_true hab)
  · have h := @List.sorted_mergeSort Meeting
      (fun a b => decide (a.scheduledDate ≤ b.scheduledDate))
      (fun a b c h1 h2 => by
        simp only [decide_eq_true_eq] at h1 h2 ⊢; omega)
      (fun a b => by
        simp only [Bool.or_eq_true, decide_eq_true_eq]; omega)
      (st.meetings.map Prod.snd)
    exact h.imp (fun hab => of_decide_eq_true hab)

/-! ### Claim C9: the constructor seeds the default HR manager -/

/-- C9: a freshly constructed store holds exactly the seeded hr_manager
Sarah Johnson (username sarah.johnson, phone +1234567890, plaintext
password password123, as recorded in `sarahUser`), so listing users
returns that one-element list, and registering any payload with phone
+1234567890 fails with 400 leaving the store unchanged. -/
theorem c9_default_seed (body : InsertUser) (h : body.phone = "+1234567890") :
    getUsers MemStorage.init = [sarahUser] ∧
    registerHandler MemStorage.init body
      = ({ status := 400, body := none }, MemStorage.init) := by
  have hus : getUsers MemStorage.init = [sarahUser] := by decide
  refine ⟨hus, ?_⟩
  have h1 : (sarahUser.phone == body.phone) = true := by rw [h]; decide
  have hfind : (getUsers MemStorage.init).find?
      (fun u => u.phone == body.phone || u.email == body.email) = some sarahUser := by
    rw [hus]
    simp [List.find?, h1]
  unfold registerHandler
  rw [hfind]

/-- C9 witness: a concrete registration payload with the seeded phone
number is rejected with 400 on the fresh store. -/
theorem c9_default_seed_witness :
    iu2.phone = "+1234567890" ∧
    getUsers MemStorage.init = [sarahUser] ∧
    registerHandler MemStorage.init iu2
      = ({ status := 400, body := none }, MemStorage.init) := by
  refine ⟨rfl, ?_, ?_⟩
  · exact (c9_default_seed iu2 rfl).1
  · exact (c9_default_seed iu2 rfl).2

/-! ### Claim C10: the 201 body is the pre-annotation snapshot -/

/-- C10: even when the AI call succeeds, POST /complaints responds 201 with
the pre-annotation complaint object — all AI fields null and the default
priority — while the stored complaint, observable by a subsequent get, is
the annotated merge carrying the analysis values and a re-stamped
updatedAt. -/
theorem c10_response_is_pre_annotation (st : MemStorage) (body : InsertComplaint)
    (a : ComplaintAnalysis) :
    (postComplaintHandler st body (Except.ok a)).1.status = 201 ∧
    (postComplaintHandler st body (Except.ok a)).1.body = some (createComplaint st body).1 ∧
    (createComplaint st body).1.aiAnalysis = none ∧
    (createComplaint st body).1.aiRecommendations = none ∧
    (createComplaint st body).1.sentimentScore = none ∧
    (createComplaint st body).1.confidenceScore = none ∧
    (createComplaint st body).1.priority = jsOrStr body.priority "medium" ∧
    getComplaint (postComplaintHandler st body (Except.ok a)).2 (createComplaint st body).1.id
      = some { (createComplaint st body).1 with
               category := some a.category
               priority := a.priority
               aiAnalysis := some a.summary
               aiRecommendations := some (jsonStringify a.recommendations)
               sentimentScore := some a.sentiment
               confidenceScore := some a.confidence
               updatedAt := (createComplaint st body).2.now } := by
  refine ⟨rfl, rfl, rfl, rfl, rfl, rfl, rfl, ?_⟩
  have hc1 : getComplaint (createComplaint st body).2 (createComplaint st body).1.id
      = some (createComplaint st body).1 := by
    simp [getComplaint, createComplaint, mapGet_mapSet_self]
  have h2 := updateComplaint_of_get hc1
    ({ category := some (some a.category)
       priority := some a.priority
       aiAnalysis := some (some a.summary)
       aiRecommendations := some (some (jsonStringify a.recommendations))
       sentimentScore := some (some a.sentiment)
       confidenceScore := some (some a.confidence) } : ComplaintUpdate)
  show getComplaint (updateComplaint (createComplaint st body).2
      (createComplaint st body).1.id _).2 _ = _
  rw [h2]
  simp only [getComplaint]
  rw [mapGet_mapSet_self]
  rfl

end HrBrain
